import Mathlib

/-!
Verification development for a retrieval-augmented question-answering
service over member messages.  The embedding models the data model and
operations of `src/app.py`: the chunker, the corpus sync engine
(bootstrap and periodic refresh), the filtered vector-index search,
the user resolver and the answer composer, as pure Lean functions over
an explicit application state.  External effects (the remote HTTP
fetch, the language-model calls, JSON decoding of model output and the
embedding-based similarity score) are modelled as explicit parameters,
so every definition is executable.
-/

namespace MemberQA

/-- A message item as delivered by the remote source:
`{id, user_id, user_name, timestamp, message}`. -/
structure Message where
  id : Nat
  user_id : String
  user_name : String
  timestamp : String
  message : String
deriving DecidableEq

/-- Metadata attached to each stored chunk, as built at `app.py` lines
97-102 and 132-137: `{user_id, user_name, timestamp, id}`. -/
structure ChunkMeta where
  user_id : String
  user_name : String
  timestamp : String
  id : Nat
deriving DecidableEq

/-- One entry of the vector index: chunk text plus its metadata. -/
structure Entry where
  text : String
  meta : ChunkMeta
deriving DecidableEq

/-- The mutable state of the process: the Chroma collection contents
(`vector_db`), the dedup set `known_timestamps` and the name-to-id
directory `user_map` (`app.py` lines 56-63).  The Python set and dict
are modelled as lists: `setAdd` and `mapInsert` below give them set
and last-write-wins dictionary semantics. -/
structure AppState where
  vector_db : List Entry
  known_timestamps : List String
  user_map : List (String × String)
deriving DecidableEq

/-- The `chunk_size=500` of the splitter configuration (`app.py` line 54). -/
def chunk_size : Nat := 500

/-- The `chunk_overlap=50` of the splitter configuration (`app.py` line 54). -/
def chunk_overlap : Nat := 50

/-- Modelled from the spec: the chunker itself is the external library
class `RecursiveCharacterTextSplitter` configured at `app.py` line 54;
only its configuration is repository code.  Following the contract of
spec §4.1, the model covers the input with chunks of at most
`chunk_size` characters, adjacent chunks overlapping by
`chunk_overlap`, and an input of at most `chunk_size` characters
yielding the single chunk equal to the input.  The `fuel` argument
makes the recursion structural; `fuel = t.length` always suffices
because each step consumes `chunk_size - chunk_overlap = 450 ≥ 1`
characters. -/
def chunkCharsAux (fuel : Nat) (t : List Char) : List (List Char) :=
  match fuel with
  | 0 => [t]
  | fuel' + 1 =>
    if t.length ≤ chunk_size then [t]
    else t.take chunk_size :: chunkCharsAux fuel' (t.drop (chunk_size - chunk_overlap))

/-- Chunk a character list with the configured size and overlap. -/
def chunkChars (t : List Char) : List (List Char) := chunkCharsAux t.length t

/-- The `splitter.split_text` call as used at `app.py` lines 95 and 129. -/
def split_text (t : String) : List String :=
  (chunkChars t.data).map String.mk

/-- Insert an entry into a list sorted by descending score (stable for
equal scores), used to model the similarity ranking. -/
def insertRanked (score : Entry → Nat) (e : Entry) : List Entry → List Entry
  | [] => [e]
  | x :: xs => if score x < score e then e :: x :: xs else x :: insertRanked score e xs

/-- Rank a list of entries by descending score. -/
def rankBy (score : Entry → Nat) : List Entry → List Entry
  | [] => []
  | x :: xs => insertRanked score x (rankBy score xs)

/-- Modelled from the spec: `vector_db.similarity_search` is the
external Chroma client invoked at `app.py` line 197; per the contract
of spec §4.3 it returns at most `k` entries restricted to those whose
metadata satisfies the equality filter, ranked by semantic similarity
to the query.  The similarity of the embeddings is external and is
modelled by the `score` parameter. -/
def similarity_search (score : String → String → Nat) (question : String) (k : Nat)
    (uid : String) (db : List Entry) : List Entry :=
  (rankBy (fun e => score question e.text) (db.filter (fun e => e.meta.user_id == uid))).take k

/-- Python `str.lower()` as used at `app.py` lines 92, 126, 193 and
196, modelled character-wise. -/
def strLower (s : String) : String := ⟨s.data.map Char.toLower⟩

/-- The metadata dict built for every chunk of a message
(`app.py` lines 97-102 and 132-137). -/
def metaOf (m : Message) : ChunkMeta :=
  ⟨m.user_id, m.user_name, m.timestamp, m.id⟩

/-- The vector-index entries produced by chunking one message. -/
def chunkEntries (m : Message) : List Entry :=
  (split_text m.message).map (fun c => ⟨c, metaOf m⟩)

/-- Python dict assignment `user_map[k] = v`: overwrite in place if the
key exists, else append. -/
def mapInsert (k v : String) (mp : List (String × String)) : List (String × String) :=
  if mp.any (fun p => p.1 == k) then
    mp.map (fun p => if p.1 == k then (k, v) else p)
  else mp ++ [(k, v)]

/-- Python set insertion `known_timestamps.add(x)`. -/
def setAdd (x : String) (s : List String) : List String :=
  if x ∈ s then s else s ++ [x]

/-- The per-message directory and dedup-set updates shared by both
ingestion paths (`app.py` lines 92-93 and 126-127). -/
def ingestMsgMaps (st : AppState) (m : Message) : AppState :=
  { st with
    user_map := mapInsert (strLower m.user_name) m.user_id st.user_map,
    known_timestamps := setAdd m.timestamp st.known_timestamps }

/-- One `vector_db.add_texts` call with a single chunk, as issued by
the refresh path (`app.py` lines 130-138). -/
def writeChunk (st : AppState) (e : Entry) : AppState :=
  { st with vector_db := st.vector_db ++ [e] }

/-- Function `bootstrap_vector_db` (`app.py` lines 82-106): update directory and
dedup set for every item, accumulate all chunks, then issue one batched
`add_texts` call if any chunk was produced. -/
def bootstrap_vector_db (items : List Message) (st : AppState) : AppState :=
  if items.flatMap chunkEntries = [] then items.foldl ingestMsgMaps st
  else
    { items.foldl ingestMsgMaps st with
      vector_db := (items.foldl ingestMsgMaps st).vector_db ++ items.flatMap chunkEntries }

/-- The refresh path's processing of one new message (`app.py` lines
125-138): directory and dedup-set update, then one `add_texts` call
per chunk. -/
def refreshIngest (st : AppState) (m : Message) : AppState :=
  (chunkEntries m).foldl writeChunk (ingestMsgMaps st m)

/-- The new-item set computed by the refresh pass
(`app.py` line 119): items whose timestamp is not yet known. -/
def new_messages (items : List Message) (st : AppState) : List Message :=
  items.filter (fun m => !(st.known_timestamps.contains m.timestamp))

/-- One cycle of `update_vector_db` (`app.py` lines 115-141) on a
fetched item set: ingest exactly the new messages, in order. -/
def update_once (items : List Message) (st : AppState) : AppState :=
  (new_messages items st).foldl refreshIngest st

/-- The intermediate states produced while writing a message's chunks
one `add_texts` call at a time (`app.py` lines 129-138). -/
def chunkWriteStates (st : AppState) : List Entry → List AppState
  | [] => []
  | e :: es => writeChunk st e :: chunkWriteStates (writeChunk st e) es

/-- The trace of intermediate states while the refresh path ingests one
message (`app.py` lines 125-138): after the `user_map` update (line
126), after the `known_timestamps.add` (line 127), and after each
single-chunk `add_texts` call (lines 129-138). -/
def msgTrace (st : AppState) (m : Message) : List AppState :=
  { st with user_map := mapInsert (strLower m.user_name) m.user_id st.user_map } ::
  ingestMsgMaps st m ::
  chunkWriteStates (ingestMsgMaps st m) (chunkEntries m)

/-- The empty initial state (`app.py` lines 56-63). -/
def st0 : AppState := ⟨[], [], []⟩

/-- A concrete remote item (the scenario of spec §8). -/
def aliceMsg : Message :=
  ⟨1, "u1", "Alice", "2024-01-01T10:00:00+00:00", "I went hiking yesterday."⟩

/-- The single vector-index entry produced by ingesting `aliceMsg`. -/
def aliceEntry : Entry :=
  ⟨"I went hiking yesterday.", ⟨"u1", "Alice", "2024-01-01T10:00:00+00:00", 1⟩⟩

/-- The state right after `aliceMsg`'s timestamp is marked known but
before any of its chunks is written. -/
def s2c : AppState := ⟨[], ["2024-01-01T10:00:00+00:00"], [("alice", "u1")]⟩

/-- The state after `aliceMsg` has been fully ingested from `st0`. -/
def s3c : AppState := ⟨[aliceEntry], ["2024-01-01T10:00:00+00:00"], [("alice", "u1")]⟩

/-- A concrete indexed chunk belonging to user `u1`. -/
def entryA : Entry := ⟨"alpha", ⟨"u1", "Alice", "t1", 1⟩⟩

/-- A concrete indexed chunk belonging to user `u2`. -/
def entryB : Entry := ⟨"beta", ⟨"u2", "Bob", "t2", 2⟩⟩

/-- The JSON body shape of the remote message feed:
`{total, items}`. -/
structure ApiResponse where
  total : Nat
  items : List Message
deriving DecidableEq

/-- Outcome of the `requests.get` call at `app.py` line 74: either the
request itself raises (network error) or an HTTP response arrives with
a status code and a body. -/
inductive FetchOutcome where
  | netError
  | response (status : Nat) (body : String)
deriving DecidableEq

/-- Function `fetch_messages` (`app.py` lines 68-79): `requests.get`, then
`resp.raise_for_status()` — which raises exactly for status codes
400-599 — then `resp.json()`, modelled by the `parseBody` parameter
(`none` when the body is not valid JSON, in which case `.json()`
raises).  The surrounding `try/except` maps every raise to
`{"total": 0, "items": []}`. -/
def fetch_messages (parseBody : String → Option ApiResponse) :
    FetchOutcome → ApiResponse
  | .netError => ⟨0, []⟩
  | .response status body =>
    if 400 ≤ status ∧ status < 600 then ⟨0, []⟩
    else
      match parseBody body with
      | none => ⟨0, []⟩
      | some r => r

/-- A concrete model of `resp.json()`: the one body `"BODY300"`
decodes to a one-item response; everything else is invalid JSON. -/
def cparseBody : String → Option ApiResponse :=
  fun s => if s = "BODY300" then some ⟨1, [aliceMsg]⟩ else none

/-- Function `identify_user` (`app.py` lines 150-176).  The model call
`llm.invoke` is modelled by its outcome `callResult` (`Except.error`
when the call raises); `json.loads` on the model output is modelled by
the `parse` parameter, decoding to an object with string-or-null
values (`Except.error` when the output is not parseable).  `data.get`
is the lookup defaulting to `none`.  The `try/except` maps both
failure modes to `None`. -/
def identify_user (parse : String → Except Unit (List (String × Option String)))
    (callResult : Except Unit String) : Option String :=
  match callResult with
  | .error _ => none
  | .ok content =>
    match parse content with
    | .error _ => none
    | .ok data =>
      match data.lookup "user_name" with
      | none => none
      | some v => v

/-- Python `str.strip()` (`app.py` lines 187 and 231), modelled
character-wise: drop whitespace from both ends. -/
def strTrim (s : String) : String :=
  ⟨((s.data.dropWhile Char.isWhitespace).reverse.dropWhile Char.isWhitespace).reverse⟩

/-- Python `str.replace(pat, rep)` (`app.py` line 205): replace every
non-overlapping occurrence left to right.  The `fuel` argument makes
the recursion structural; `fuel = s.length` suffices for a non-empty
pattern because every step consumes at least one character. -/
def replaceAllAux (pat rep : List Char) (fuel : Nat) (s : List Char) : List Char :=
  match fuel with
  | 0 => s
  | fuel' + 1 =>
    match s with
    | [] => []
    | c :: rest =>
      if s.take pat.length = pat ∧ pat ≠ [] then
        rep ++ replaceAllAux pat rep fuel' (s.drop pat.length)
      else c :: replaceAllAux pat rep fuel' rest

/-- Python `s.replace(pat, rep)` on strings. -/
def strReplace (s pat rep : String) : String :=
  ⟨replaceAllAux pat.data rep.data s.data.length s.data⟩

/-- The result of a successful `datetime.fromisoformat` call. -/
structure PyDateTime where
  year : Nat
  month : Nat
  day : Nat
  hour : Nat
  minute : Nat
  second : Nat
deriving DecidableEq

/-- Decimal value of a digit list. -/
def digitsToNat (cs : List Char) : Nat :=
  cs.foldl (fun a c => 10 * a + (c.toNat - 48)) 0

/-- Consume exactly `n` decimal digits. -/
def takeDigits (n : Nat) (cs : List Char) : Option (Nat × List Char) :=
  if (cs.take n).length = n ∧ (cs.take n).all Char.isDigit then
    some (digitsToNat (cs.take n), cs.drop n)
  else none

/-- Consume one expected character. -/
def expectChar (c : Char) : List Char → Option (List Char)
  | [] => none
  | x :: xs => if x = c then some xs else none

/-- Gregorian leap-year rule, as validated by `datetime`. -/
def isLeapYear (y : Nat) : Bool :=
  (y % 4 == 0 && y % 100 != 0) || y % 400 == 0

/-- Days in a month, as validated by `datetime`. -/
def daysInMonth (y m : Nat) : Nat :=
  if m = 2 then (if isLeapYear y then 29 else 28)
  else if m = 4 ∨ m = 6 ∨ m = 9 ∨ m = 11 then 30
  else 31

/-- Consume an optional fractional-seconds part `.f{1,6}`. -/
def parseFraction : List Char → Option (List Char)
  | '.' :: rest =>
    if 1 ≤ (rest.takeWhile Char.isDigit).length ∧
        (rest.takeWhile Char.isDigit).length ≤ 6 then
      some (rest.dropWhile Char.isDigit)
    else none
  | cs => some cs

/-- Validate a trailing UTC-offset part: empty, `Z`, or `±HH:MM`. -/
def validOffset : List Char → Bool
  | [] => true
  | ['Z'] => true
  | c :: rest =>
    if c = '+' ∨ c = '-' then
      match takeDigits 2 rest with
      | none => false
      | some (h, rest1) =>
        match expectChar ':' rest1 with
        | none => false
        | some rest2 =>
          match takeDigits 2 rest2 with
          | none => false
          | some (mi, rest3) => rest3.isEmpty && decide (h < 24) && decide (mi < 60)
    else false

/-- Consume an optional `:SS[.f{1,6}]` seconds part. -/
def parseSeconds : List Char → Option (Nat × List Char)
  | ':' :: rest => do
    let (s, r1) ← takeDigits 2 rest
    let r2 ← parseFraction r1
    pure (s, r2)
  | cs => pure (0, cs)

/-- Parse and validate a `HH:MM[:SS[.f]][offset]` time part. -/
def parseTime (cs : List Char) : Option (Nat × Nat × Nat) := do
  let (h, r1) ← takeDigits 2 cs
  let r2 ← expectChar ':' r1
  let (mi, r3) ← takeDigits 2 r2
  let (s, r4) ← parseSeconds r3
  if validOffset r4 ∧ h < 24 ∧ mi < 60 ∧ s < 60 then pure (h, mi, s) else none

/-- Modelled from the spec: `datetime.fromisoformat` (`app.py` line
205) is the Python standard library, not repository code; per spec
§4.5 the composer derives the date from "its stored ISO-8601
timestamp" and tolerates parse failure.  The model parses the extended
ISO-8601 forms `YYYY-MM-DD[(T| )HH:MM[:SS[.f{1,6}]][offset]]` with
calendar validation and returns `none` on every other input. -/
def fromisoformat (s : String) : Option PyDateTime := do
  let (y, r1) ← takeDigits 4 s.data
  let r2 ← expectChar '-' r1
  let (mo, r3) ← takeDigits 2 r2
  let r4 ← expectChar '-' r3
  let (d, r5) ← takeDigits 2 r4
  if 1 ≤ mo ∧ mo ≤ 12 ∧ 1 ≤ d ∧ d ≤ daysInMonth y mo then
    match r5 with
    | [] => pure ⟨y, mo, d, 0, 0, 0⟩
    | sep :: rest =>
      if sep = 'T' ∨ sep = ' ' then do
        let (h, mi, sec) ← parseTime rest
        pure ⟨y, mo, d, h, mi, sec⟩
      else none
  else none

/-- Month names of `strftime("%B %d, %Y")`. -/
def monthName : Nat → String
  | 1 => "January"
  | 2 => "February"
  | 3 => "March"
  | 4 => "April"
  | 5 => "May"
  | 6 => "June"
  | 7 => "July"
  | 8 => "August"
  | 9 => "September"
  | 10 => "October"
  | 11 => "November"
  | 12 => "December"
  | _ => ""

/-- Zero-padded two-digit field of `strftime`. -/
def pad2 (n : Nat) : String :=
  if n < 10 then "0" ++ toString n else toString n

/-- The call `dt.strftime("%B %d, %Y")` (`app.py` line 206). -/
def formatLongDate (d : PyDateTime) : String :=
  monthName d.month ++ " " ++ pad2 d.day ++ ", " ++ toString d.year

/-- One numbered context line of the answer composer (`app.py` lines
202-213): the long-form date derived from the stored timestamp with
`"+00:00"` removed, falling back to the literal `"unknown date"` when
`fromisoformat` fails. -/
def contextLine (i : Nat) (e : Entry) : String :=
  "Message " ++ toString i ++ " (Date: " ++
    (match fromisoformat (strReplace e.meta.timestamp "+00:00" "") with
     | none => "unknown date"
     | some dt => formatLongDate dt) ++
  "):\n" ++ e.text

/-- The numbered context lines, numbering from 1 (`app.py` line 202). -/
def contextParts : Nat → List Entry → List String
  | _, [] => []
  | i, e :: es => contextLine i e :: contextParts (i + 1) es

/-- The response payload of `/ask`: a 200 JSON body with an `answer`
field, or an error status with an `error` field. -/
inductive AskResponse where
  | answer (text : String)
  | error (status : Nat) (msg : String)
deriving DecidableEq

/-- The externals consumed by one `/ask` request: the resolver's JSON
decoding and model-call outcome, the generation model (receiving the
question and the composed context), and the similarity score of the
embeddings. -/
structure AskEnv where
  parse : String → Except Unit (List (String × Option String))
  llmIdentify : Except Unit String
  llmGenerate : String → String → Except String String
  score : String → String → Nat

/-- What one `/ask` request produces: the response, whether the
answer-generation model call was made, and the application state
afterwards. -/
structure AskOutcome where
  resp : AskResponse
  genCalled : Bool
  state : AppState

/-- The 400 message of `app.py` line 194. -/
def unknownMemberMsg : String :=
  "Couldn\x27t determine which member the question refers to."

/-- The `/ask` handler `ask_question` (`app.py` lines 179-234),
state-threaded: validate the question, resolve the user, look the
resolved name up in the directory, run the filtered top-4 search,
short-circuit on an empty result, otherwise compose the dated context
and call the generation model. -/
def ask_question (env : AskEnv) (st : AppState) (questionField : Option String) :
    AskOutcome :=
  let question := strTrim (questionField.getD "")
  if question = "" then ⟨.error 400 "Missing \x27question\x27 field", false, st⟩
  else
    match identify_user env.parse env.llmIdentify with
    | none => ⟨.error 400 unknownMemberMsg, false, st⟩
    | some user_name =>
      if user_name = "" then ⟨.error 400 unknownMemberMsg, false, st⟩
      else
        match st.user_map.lookup (strLower user_name) with
        | none => ⟨.error 400 unknownMemberMsg, false, st⟩
        | some user_id =>
          let relevant_docs := similarity_search env.score question 4 user_id st.vector_db
          if relevant_docs = [] then
            ⟨.answer ("No messages found for " ++ user_name ++ "."), false, st⟩
          else
            match env.llmGenerate question
                (String.intercalate "\n\n" (contextParts 1 relevant_docs)) with
            | .ok answer => ⟨.answer (strTrim answer), true, st⟩
            | .error e => ⟨.error 500 ("Failed to generate answer: " ++ e), true, st⟩

/-- A concrete request environment: the resolver model returns the one
output that decodes to the name `"Alice"`, and the generation model
answers `" fine "`. -/
def cenv : AskEnv :=
  ⟨fun s => if s = "USER Alice" then .ok [("user_name", some "Alice")] else .error (),
   .ok "USER Alice",
   fun _ _ => .ok " fine ",
   fun _ t => t.length⟩

/-- A state knowing user `alice` but holding no indexed chunks. -/
def cstNoDocs : AppState := ⟨[], [], [("alice", "u1")]⟩

/-- An indexed chunk of user `u1` whose stored timestamp is not an
ISO-8601 date. -/
def badEntry : Entry := ⟨"Lunch was great.", ⟨"u1", "Alice", "yesterday", 2⟩⟩

/-- A state whose only indexed chunk carries the unparseable
timestamp. -/
def cstBad : AppState := ⟨[badEntry], ["yesterday"], [("alice", "u1")]⟩

end MemberQA

namespace MemberQA

/-- A character list of at most `chunk_size` characters is a single
chunk, whatever the fuel. -/
theorem chunkCharsAux_short (fuel : Nat) (t : List Char) (h : t.length ≤ chunk_size) :
    chunkCharsAux fuel t = [t] := by
  cases fuel with
  | zero => rfl
  | succ n =>
    unfold chunkCharsAux
    rw [if_pos h]

/-- C8: an input strictly shorter than the target length 500 is
returned as a single chunk equal to the input. -/
theorem short_input_single_chunk (t : String) (h : t.length < 500) :
    split_text t = [t] := by
  obtain ⟨data⟩ := t
  have h' : data.length < 500 := h
  have hd : data.length ≤ chunk_size := Nat.le_of_lt h'
  unfold split_text chunkChars
  rw [chunkCharsAux_short _ _ hd]
  rfl

/-- Witness for C8 at the concrete input `"hi"`. -/
theorem short_input_single_chunk_witness :
    String.length "hi" < 500 ∧ split_text "hi" = ["hi"] :=
  ⟨by decide, short_input_single_chunk "hi" (by decide)⟩

/-- Membership in a ranked insertion comes from the inserted element or
the original list. -/
theorem mem_of_mem_insertRanked (score : Entry → Nat) (e a : Entry) :
    ∀ l : List Entry, a ∈ insertRanked score e l → a = e ∨ a ∈ l := by
  intro l
  induction l with
  | nil => intro h; simpa [insertRanked] using h
  | cons x xs ih =>
    intro h
    unfold insertRanked at h
    by_cases hc : score x < score e
    · rw [if_pos hc] at h
      rcases List.mem_cons.mp h with h1 | h1
      · exact Or.inl h1
      · exact Or.inr h1
    · rw [if_neg hc] at h
      rcases List.mem_cons.mp h with h1 | h1
      · exact Or.inr (by simp [h1])
      · rcases ih h1 with h2 | h2
        · exact Or.inl h2
        · exact Or.inr (List.mem_cons_of_mem _ h2)

/-- Ranking does not introduce new entries. -/
theorem mem_of_mem_rankBy (score : Entry → Nat) (a : Entry) :
    ∀ l : List Entry, a ∈ rankBy score l → a ∈ l := by
  intro l
  induction l with
  | nil => intro h; simp [rankBy] at h
  | cons x xs ih =>
    intro h
    unfold rankBy at h
    rcases mem_of_mem_insertRanked _ _ _ _ h with h1 | h1
    · simp [h1]
    · exact List.mem_cons_of_mem _ (ih h1)

/-- C1: a similarity search filtered to user A's id returns only
entries whose metadata `user_id` equals A's id, hence zero entries of
any distinct user B, for every query, breadth and ranking. -/
theorem filter_isolation (score : String → String → Nat) (question : String)
    (k : Nat) (uidA uidB : String) (db : List Entry) (hAB : uidA ≠ uidB) :
    ∀ e ∈ similarity_search score question k uidA db,
      e.meta.user_id = uidA ∧ e.meta.user_id ≠ uidB := by
  intro e he
  unfold similarity_search at he
  have h1 : e ∈ rankBy (fun e => score question e.text)
      (db.filter (fun e => e.meta.user_id == uidA)) := List.mem_of_mem_take he
  have h2 : e ∈ db.filter (fun e => e.meta.user_id == uidA) :=
    mem_of_mem_rankBy _ _ _ h1
  have h3 := (List.mem_filter.mp h2).2
  have h4 : e.meta.user_id = uidA := by simpa using h3
  exact ⟨h4, by rw [h4]; exact hAB⟩

/-- Witness for C1: with both users' chunks indexed, the search
filtered to `"u1"` returns `entryA`, which belongs to `"u1"` and not to
`"u2"`. -/
theorem filter_isolation_witness :
    entryA.meta.user_id = "u1" ∧ entryA.meta.user_id ≠ "u2" :=
  filter_isolation (fun _ t => t.length) "What did Alice do?" 4 "u1" "u2"
    [entryA, entryB] (by decide) entryA (by decide)

/-- An element just added by `setAdd` is a member. -/
theorem mem_setAdd_self (x : String) (s : List String) : x ∈ setAdd x s := by
  unfold setAdd
  by_cases h : x ∈ s
  · rwa [if_pos h]
  · rw [if_neg h]; simp

/-- Insertion via `setAdd` preserves existing members. -/
theorem mem_setAdd_of_mem (x y : String) (s : List String) (h : y ∈ s) :
    y ∈ setAdd x s := by
  unfold setAdd
  by_cases hx : x ∈ s
  · rwa [if_pos hx]
  · rw [if_neg hx]; exact List.mem_append_left _ h

/-- The directory/dedup-set fold never removes a known timestamp. -/
theorem known_foldl_ingest_mono (x : String) :
    ∀ (items : List Message) (st : AppState), x ∈ st.known_timestamps →
      x ∈ (items.foldl ingestMsgMaps st).known_timestamps := by
  intro items
  induction items with
  | nil => intro st h; simpa using h
  | cons m ms ih =>
    intro st h
    simp only [List.foldl_cons]
    exact ih _ (mem_setAdd_of_mem _ _ _ h)

/-- After the directory/dedup-set fold, every processed item's
timestamp is known. -/
theorem timestamp_mem_foldl_ingest (m : Message) :
    ∀ (items : List Message) (st : AppState), m ∈ items →
      m.timestamp ∈ (items.foldl ingestMsgMaps st).known_timestamps := by
  intro items
  induction items with
  | nil => intro st h; cases h
  | cons m' ms ih =>
    intro st h
    simp only [List.foldl_cons]
    rcases List.mem_cons.mp h with h' | h'
    · subst h'
      exact known_foldl_ingest_mono _ _ _ (mem_setAdd_self _ _)
    · exact ih _ h'

/-- Bootstrap's dedup set is exactly the one from the fold. -/
theorem bootstrap_known_eq (items : List Message) (st : AppState) :
    (bootstrap_vector_db items st).known_timestamps =
      (items.foldl ingestMsgMaps st).known_timestamps := by
  unfold bootstrap_vector_db
  split <;> rfl

/-- C2: a second sync pass over the snapshot already ingested by
bootstrap computes an empty new-item set and leaves the state — vector
index contents, directory and dedup set, hence their sizes —
completely unchanged. -/
theorem sync_idempotent (items : List Message) (st : AppState) :
    new_messages items (bootstrap_vector_db items st) = [] ∧
    update_once items (bootstrap_vector_db items st) = bootstrap_vector_db items st := by
  have hempty : new_messages items (bootstrap_vector_db items st) = [] := by
    unfold new_messages
    rw [List.filter_eq_nil_iff]
    intro m hm
    have hk : m.timestamp ∈ (bootstrap_vector_db items st).known_timestamps := by
      rw [bootstrap_known_eq]
      exact timestamp_mem_foldl_ingest _ _ _ hm
    simp [hk]
  exact ⟨hempty, by unfold update_once; rw [hempty]; rfl⟩

/-- Folding single-chunk writes appends the chunks in order. -/
theorem foldl_writeChunk_eq : ∀ (l : List Entry) (st : AppState),
    l.foldl writeChunk st = { st with vector_db := st.vector_db ++ l } := by
  intro l
  induction l with
  | nil => intro st; simp
  | cons e es ih =>
    intro st
    simp only [List.foldl_cons]
    rw [ih]
    simp [writeChunk, List.append_assoc]

/-- The directory/dedup-set fold never touches the vector index. -/
theorem foldl_ingest_db : ∀ (items : List Message) (st : AppState),
    (items.foldl ingestMsgMaps st).vector_db = st.vector_db := by
  intro items
  induction items with
  | nil => intro st; rfl
  | cons m ms ih =>
    intro st
    simp only [List.foldl_cons]
    rw [ih]
    rfl

/-- Directory/dedup-set updates commute with setting the vector index. -/
theorem ingest_set_db (st : AppState) (v : List Entry) (m : Message) :
    ingestMsgMaps { st with vector_db := v } m =
      { ingestMsgMaps st m with vector_db := v } := rfl

/-- The directory/dedup-set fold commutes with setting the vector
index. -/
theorem foldl_ingest_set_db : ∀ (items : List Message) (st : AppState) (v : List Entry),
    items.foldl ingestMsgMaps { st with vector_db := v } =
      { items.foldl ingestMsgMaps st with vector_db := v } := by
  intro items
  induction items with
  | nil => intro st v; rfl
  | cons m ms ih =>
    intro st v
    simp only [List.foldl_cons]
    rw [ingest_set_db, ih]

/-- Closed form of bootstrap: directory/dedup fold plus one batched
append of all chunks. -/
theorem bootstrap_closed (items : List Message) (st : AppState) :
    bootstrap_vector_db items st =
      { items.foldl ingestMsgMaps st with
        vector_db := st.vector_db ++ items.flatMap chunkEntries } := by
  unfold bootstrap_vector_db
  split
  case isTrue h => rw [h, List.append_nil, ← foldl_ingest_db items st]
  case isFalse h => rw [foldl_ingest_db]

/-- Closed form of the refresh path's single-message ingestion. -/
theorem refresh_closed (st : AppState) (m : Message) :
    refreshIngest st m =
      { ingestMsgMaps st m with vector_db := st.vector_db ++ chunkEntries m } := by
  unfold refreshIngest
  rw [foldl_writeChunk_eq]
  rfl

/-- Closed form of the refresh path over a list of messages. -/
theorem foldl_refresh_closed : ∀ (msgs : List Message) (st : AppState),
    msgs.foldl refreshIngest st =
      { msgs.foldl ingestMsgMaps st with
        vector_db := st.vector_db ++ msgs.flatMap chunkEntries } := by
  intro msgs
  induction msgs with
  | nil => intro st; simp
  | cons m ms ih =>
    intro st
    simp only [List.foldl_cons]
    rw [ih, refresh_closed, foldl_ingest_set_db]
    simp [List.append_assoc]

/-- C10: per message and per pass, the refresh path's chunk-by-chunk
ingestion produces exactly the state of bootstrap's batched ingestion
— same chunks, same metadata, same directory and dedup-set updates. -/
theorem bootstrap_refresh_equiv :
    (∀ (st : AppState) (m : Message),
        refreshIngest st m = bootstrap_vector_db [m] st) ∧
    (∀ (items : List Message) (st : AppState),
        update_once items st = bootstrap_vector_db (new_messages items st) st) := by
  constructor
  · intro st m
    rw [refresh_closed, bootstrap_closed]
    simp
  · intro items st
    unfold update_once
    rw [foldl_refresh_closed, bootstrap_closed]

/-- The chunk-writing loop never changes the dedup set. -/
theorem chunkWriteStates_known : ∀ (l : List Entry) (st s : AppState),
    s ∈ chunkWriteStates st l → s.known_timestamps = st.known_timestamps := by
  intro l
  induction l with
  | nil => intro st s h; simp [chunkWriteStates] at h
  | cons e es ih =>
    intro st s h
    unfold chunkWriteStates at h
    rcases List.mem_cons.mp h with h1 | h1
    · rw [h1]; rfl
    · rw [ih _ _ h1]; rfl

/-- Counterexample to C3 as stated: ingesting the scenario message from
the empty state, the trace contains a state (right after
`known_timestamps.add`, `app.py` line 127) whose dedup set holds the
timestamp while no chunk has been written yet, so "timestamp present
iff all chunks written" fails during ingestion. -/
theorem known_iff_written_counterexample :
    ¬ (∀ s ∈ msgTrace st0 aliceMsg,
        (aliceMsg.timestamp ∈ s.known_timestamps ↔
          ∀ e ∈ chunkEntries aliceMsg, e ∈ s.vector_db)) := by decide

/-- C3 amended: the timestamp is marked known no later than the first
chunk write — at every point of the refresh path's ingestion of a
message, if any chunk of the message has been newly written then its
timestamp is already in the dedup set; and a message whose timestamp is
in the dedup set is excluded from every later pass's new-item set (so
an interrupted message is not re-ingested). -/
theorem known_marked_before_writes (st : AppState) (m : Message) :
    (∀ s ∈ msgTrace st m,
        (∃ e ∈ chunkEntries m, e ∈ s.vector_db ∧ e ∉ st.vector_db) →
        m.timestamp ∈ s.known_timestamps) ∧
    (∀ (items : List Message) (s : AppState),
        m.timestamp ∈ s.known_timestamps → m ∉ new_messages items s) := by
  constructor
  · intro s hs hex
    unfold msgTrace at hs
    rcases List.mem_cons.mp hs with h1 | h1
    · exfalso
      rcases hex with ⟨e, _, he2, he3⟩
      rw [h1] at he2
      exact he3 he2
    · rcases List.mem_cons.mp h1 with h2 | h2
      · rw [h2]
        exact mem_setAdd_self _ _
      · rw [chunkWriteStates_known _ _ _ h2]
        exact mem_setAdd_self _ _
  · intro items s hmem hin
    unfold new_messages at hin
    have hp := (List.mem_filter.mp hin).2
    simp [hmem] at hp

/-- Witness for the amended C3 at the scenario message: applying the
theorem at the fully-written trace state and at the marked-known
state. -/
theorem known_marked_before_writes_witness :
    aliceMsg.timestamp ∈ s3c.known_timestamps ∧
      aliceMsg ∉ new_messages [aliceMsg] s2c :=
  ⟨(known_marked_before_writes st0 aliceMsg).1 s3c (by decide)
      ⟨aliceEntry, by decide, by decide⟩,
   (known_marked_before_writes st0 aliceMsg).2 [aliceMsg] s2c (by decide)⟩

/-- C5 amended: a network error, a 4xx/5xx status, or an unparseable
body each yield the empty result `{"total": 0, "items": []}` without
raising; `raise_for_status` raises only for statuses 400-599, so these
are the failure shapes that degrade to zero items. -/
theorem fetch_failure_empty (parseBody : String → Option ApiResponse)
    (status : Nat) (body : String) :
    fetch_messages parseBody FetchOutcome.netError = ⟨0, []⟩ ∧
    (400 ≤ status → status < 600 →
      fetch_messages parseBody (FetchOutcome.response status body) = ⟨0, []⟩) ∧
    (parseBody body = none →
      fetch_messages parseBody (FetchOutcome.response status body) = ⟨0, []⟩) := by
  refine ⟨rfl, ?_, ?_⟩
  · intro h1 h2
    simp [fetch_messages, h1, h2]
  · intro h
    simp [fetch_messages, h]

/-- Witness for the amended C5 at a 500 status and an unparseable
body. -/
theorem fetch_failure_empty_witness :
    fetch_messages cparseBody (FetchOutcome.response 500 "oops") = ⟨0, []⟩ ∧
    fetch_messages cparseBody (FetchOutcome.response 200 "oops") = ⟨0, []⟩ :=
  ⟨(fetch_failure_empty cparseBody 500 "oops").2.1 (by decide) (by decide),
   (fetch_failure_empty cparseBody 200 "oops").2.2 (by decide)⟩

/-- Counterexample to C5 as stated: a 300 response is not 2xx — a
"failure" per the claim — yet with a parseable body `fetch_messages`
returns the parsed items, not the empty result, because
`raise_for_status` does not raise for 3xx statuses. -/
theorem fetch_non2xx_counterexample :
    ¬ (200 ≤ 300 ∧ 300 < 300) ∧
    fetch_messages cparseBody (FetchOutcome.response 300 "BODY300") = ⟨1, [aliceMsg]⟩ ∧
    fetch_messages cparseBody (FetchOutcome.response 300 "BODY300") ≠ ⟨0, []⟩ := by
  decide

/-- C4: a resolver model-call failure or unparseable model output makes
`identify_user` return the unknown outcome `none` instead of
propagating; and whenever the resolved name is `none` or its lowercase
form is absent from the user directory, the `/ask` handler returns a
400 error response and makes no answer-generation model call. -/
theorem resolver_unknown_safe :
    (∀ parse : String → Except Unit (List (String × Option String)),
        identify_user parse (Except.error ()) = none) ∧
    (∀ (parse : String → Except Unit (List (String × Option String)))
        (content : String),
        parse content = Except.error () →
        identify_user parse (Except.ok content) = none) ∧
    (∀ (env : AskEnv) (st : AppState) (questionField : Option String),
        (identify_user env.parse env.llmIdentify = none ∨
          ∃ n, identify_user env.parse env.llmIdentify = some n ∧
            st.user_map.lookup (strLower n) = none) →
        (∃ msg, (ask_question env st questionField).resp = AskResponse.error 400 msg) ∧
        (ask_question env st questionField).genCalled = false) := by
  refine ⟨fun _ => rfl, ?_, ?_⟩
  · intro parse content h
    simp [identify_user, h]
  · intro env st qf hun
    by_cases hq : strTrim (qf.getD "") = ""
    · exact ⟨⟨"Missing \x27question\x27 field", by simp [ask_question, hq]⟩,
        by simp [ask_question, hq]⟩
    · cases hid : identify_user env.parse env.llmIdentify with
      | none =>
        exact ⟨⟨unknownMemberMsg, by simp [ask_question, hq, hid]⟩,
          by simp [ask_question, hq, hid]⟩
      | some n =>
        rcases hun with h | ⟨n', hn', hlk⟩
        · rw [hid] at h; cases h
        · rw [hid] at hn'
          injection hn' with hn''
          subst hn''
          by_cases hne : n = ""
          · exact ⟨⟨unknownMemberMsg, by simp [ask_question, hq, hid, hne]⟩,
              by simp [ask_question, hq, hid, hne]⟩
          · exact ⟨⟨unknownMemberMsg, by simp [ask_question, hq, hid, hne, hlk]⟩,
              by simp [ask_question, hq, hid, hne, hlk]⟩

/-- Witness for C4: a failing resolver call yields `none`, and the
handler answers 400 without a generation call. -/
theorem resolver_unknown_safe_witness :
    identify_user cenv.parse (Except.error ()) = none ∧
    ((∃ msg, (ask_question ⟨cenv.parse, Except.error (), cenv.llmGenerate, cenv.score⟩
        cstNoDocs (some "What did Alice do?")).resp = AskResponse.error 400 msg) ∧
      (ask_question ⟨cenv.parse, Except.error (), cenv.llmGenerate, cenv.score⟩
        cstNoDocs (some "What did Alice do?")).genCalled = false) :=
  ⟨resolver_unknown_safe.1 cenv.parse,
   resolver_unknown_safe.2.2 ⟨cenv.parse, Except.error (), cenv.llmGenerate, cenv.score⟩
     cstNoDocs (some "What did Alice do?") (Or.inl rfl)⟩

/-- Counterexample to C6 as stated: the empty-retrieval answer the
handler produces is `"No messages found for Alice."` — capitalized,
with a trailing period — which is not the claimed literal
`"no messages found for Alice"`. -/
theorem empty_result_literal_counterexample :
    (ask_question cenv cstNoDocs (some "What did Alice do?")).resp =
      AskResponse.answer "No messages found for Alice." ∧
    "No messages found for Alice." ≠ "no messages found for Alice" := by
  decide

/-- C6 amended: for a resolved user present in the directory whose
filtered top-4 search returns zero chunks, the handler returns the
literal answer `"No messages found for <name>."` as a successful
response with an answer field — not an error — and makes no generation
call. -/
theorem empty_result_path (env : AskEnv) (st : AppState) (qf : Option String)
    (n uid : String)
    (hq : strTrim (qf.getD "") ≠ "")
    (hid : identify_user env.parse env.llmIdentify = some n)
    (hne : n ≠ "")
    (hlk : st.user_map.lookup (strLower n) = some uid)
    (hse : similarity_search env.score (strTrim (qf.getD "")) 4 uid st.vector_db = []) :
    (ask_question env st qf).resp = AskResponse.answer ("No messages found for " ++ n ++ ".") ∧
    (ask_question env st qf).genCalled = false := by
  constructor <;> simp [ask_question, hq, hid, hne, hlk, hse]

/-- Witness for the amended C6 at the concrete environment with no
indexed chunks. -/
theorem empty_result_path_witness :
    (ask_question cenv cstNoDocs (some "What did Alice do?")).resp =
      AskResponse.answer ("No messages found for " ++ "Alice" ++ ".") ∧
    (ask_question cenv cstNoDocs (some "What did Alice do?")).genCalled = false :=
  empty_result_path cenv cstNoDocs (some "What did Alice do?") "Alice" "u1"
    (by decide) (by decide) (by decide) (by decide) (by decide)

/-- C7: a retrieved chunk whose stored timestamp (after removing
`"+00:00"`) is not parseable gets the literal `"unknown date"`
placeholder in its context line, and a request that reaches answer
composition still completes with a successful answer whenever the
generation call succeeds — date-parse failure never fails the
request. -/
theorem unknown_date_fallback (i : Nat) (e : Entry)
    (hbad : fromisoformat (strReplace e.meta.timestamp "+00:00" "") = none) :
    contextLine i e =
      "Message " ++ toString i ++ " (Date: " ++ "unknown date" ++ "):\n" ++ e.text ∧
    (∀ (env : AskEnv) (st : AppState) (qf : Option String) (n uid ans : String),
      strTrim (qf.getD "") ≠ "" →
      identify_user env.parse env.llmIdentify = some n →
      n ≠ "" →
      st.user_map.lookup (strLower n) = some uid →
      similarity_search env.score (strTrim (qf.getD "")) 4 uid st.vector_db ≠ [] →
      env.llmGenerate (strTrim (qf.getD ""))
        (String.intercalate "\n\n"
          (contextParts 1
            (similarity_search env.score (strTrim (qf.getD "")) 4 uid st.vector_db))) =
        Except.ok ans →
      (ask_question env st qf).resp = AskResponse.answer (strTrim ans)) := by
  constructor
  · unfold contextLine
    rw [hbad]
  · intro env st qf n uid ans hq hid hne hlk hse hgen
    simp [ask_question, hq, hid, hne, hlk, hse, hgen]

/-- Witness for C7 at the concrete unparseable timestamp
`"yesterday"`. -/
theorem unknown_date_fallback_witness :
    contextLine 1 badEntry =
      "Message " ++ toString 1 ++ " (Date: " ++ "unknown date" ++ "):\n" ++ badEntry.text ∧
    (ask_question cenv cstBad (some "What did Alice do?")).resp =
      AskResponse.answer (strTrim " fine ") :=
  ⟨(unknown_date_fallback 1 badEntry (by decide)).1,
   (unknown_date_fallback 1 badEntry (by decide)).2 cenv cstBad
     (some "What did Alice do?") "Alice" "u1" " fine "
     (by decide) (by decide) (by decide) (by decide) (by decide) rfl⟩

/-- C9: request handling is read-only — after any `/ask` request the
user directory, the dedup set and the vector-index contents are
exactly what they were before. -/
theorem ask_readonly (env : AskEnv) (st : AppState) (qf : Option String) :
    (ask_question env st qf).state = st := by
  unfold ask_question
  dsimp only
  split
  · rfl
  · split
    · rfl
    · split
      · rfl
      · split
        · rfl
        · split
          · rfl
          · split <;> rfl

end MemberQA
